import Mathlib

/-
Verification development for the StudyScape open-now evaluator
(supabase/functions/isOpenNowFilter/index.ts).

The embedding mirrors the TypeScript source:
  - DaySchedule  : interface with optional string fields open / close
    (named openTime / closeTime below, after the local variables in the
    source, because the word open is reserved in Lean);
  - SpotHours    : a string-keyed object mapping day names to schedules,
    embedded as an association list with first-match lookup;
  - string comparison with the JavaScript relational operators, which on
    strings is lexicographic code-unit comparison (listLt / jsLt below;
    a >= b in JavaScript on strings is the negation of a < b);
  - String.prototype.toLowerCase, embedded as a character-wise map
    (the strings involved are ASCII day names and time digits);
  - a present-but-empty string field is falsy in JavaScript, so the
    guard todaySchedule.open && todaySchedule.close also rejects
    empty strings; the embedding makes this explicit.
-/

structure DaySchedule where
  openTime : Option String
  closeTime : Option String
deriving DecidableEq, Repr

abbrev SpotHours := List (String × DaySchedule)

/-- Lexicographic code-unit comparison of character lists, as performed
by the JavaScript relational operator on strings. -/
def listLt : List Char → List Char → Bool
  | _, [] => false
  | [], _ :: _ => true
  | a :: as, b :: bs => if a = b then listLt as bs else decide (a < b)

/-- JavaScript string comparison a less-than b. -/
def jsLt (a b : String) : Bool :=
  listLt a.data b.data

/-- JavaScript String.prototype.toLowerCase on the ASCII strings used here. -/
def toLowerCase (s : String) : String :=
  ⟨s.data.map Char.toLower⟩

/-- JavaScript truthiness of an optional string field: defined and non-empty. -/
def truthy : Option String → Bool
  | none => false
  | some s => !(s == "")

/-- A day entry whose open or close field is missing, or present but empty:
the guard on index.ts line 46 (and line 64) rejects exactly these, by the
falsiness of undefined and of the empty string. -/
def missingFields (sched : DaySchedule) : Bool :=
  !(truthy sched.openTime) || !(truthy sched.closeTime)

/-- A day entry carrying the case-insensitive closed sentinel in its open
or close field (index.ts lines 50 and 68-69). -/
def closedSentinel (sched : DaySchedule) : Bool :=
  (match sched.openTime with
   | some o => toLowerCase o == "closed"
   | none => false) ||
  (match sched.closeTime with
   | some c => toLowerCase c == "closed"
   | none => false)

/-- The today pass of isSpotOpen (index.ts lines 46-61): the body executed
when todaySchedule, todaySchedule.open and todaySchedule.close are truthy,
returning whether that block returns true. -/
def todayBranch (sched : DaySchedule) (melbourneCurrentTime : String) : Bool :=
  match sched.openTime, sched.closeTime with
  | some openTime, some closeTime =>
    if openTime == "" || closeTime == "" then false
    else if toLowerCase openTime == "closed" || toLowerCase closeTime == "closed" then
      false
    else if jsLt openTime closeTime then
      !(jsLt melbourneCurrentTime openTime) && jsLt melbourneCurrentTime closeTime
    else if jsLt closeTime openTime then
      !(jsLt melbourneCurrentTime openTime)
    else false
  | _, _ => false

/-- The yesterday pass of isSpotOpen (index.ts lines 63-76). -/
def yesterdayBranch (sched : DaySchedule) (melbourneCurrentTime : String) : Bool :=
  match sched.openTime, sched.closeTime with
  | some openTimeYesterday, some closeTimeYesterday =>
    if openTimeYesterday == "" || closeTimeYesterday == "" then false
    else if !(toLowerCase openTimeYesterday == "closed") &&
            !(toLowerCase closeTimeYesterday == "closed") &&
            jsLt closeTimeYesterday openTimeYesterday then
      jsLt melbourneCurrentTime closeTimeYesterday
    else false
  | _, _ => false

/-- The today pass of isSpotOpen: lookup of the schedule under the
lowercased day name (index.ts line 45) followed by the today block. -/
def todayPass (hs : SpotHours) (melbourneDay melbourneCurrentTime : String) : Bool :=
  match hs.lookup (toLowerCase melbourneDay) with
  | some sched => todayBranch sched melbourneCurrentTime
  | none => false

/-- The yesterday pass of isSpotOpen: lookup of the schedule under the
lowercased yesterday day name (index.ts line 63) followed by the
yesterday block. -/
def yesterdayPass (hs : SpotHours) (melbourneYesterdayDay melbourneCurrentTime : String) : Bool :=
  match hs.lookup (toLowerCase melbourneYesterdayDay) with
  | some sched => yesterdayBranch sched melbourneCurrentTime
  | none => false

/-- isSpotOpen (index.ts lines 38-79): null hours give false; otherwise the
today pass runs first and the yesterday pass runs only when the today pass
did not return true, which coincides with the boolean disjunction. -/
def isSpotOpen (spotHours : Option SpotHours)
    (melbourneDay melbourneCurrentTime melbourneYesterdayDay : String) : Bool :=
  match spotHours with
  | none => false
  | some hs =>
    todayPass hs melbourneDay melbourneCurrentTime ||
    yesterdayPass hs melbourneYesterdayDay melbourneCurrentTime

structure StudySpot where
  id : String
  hours : Option SpotHours

/-- The batch filter (index.ts lines 111-113). -/
def openSpotIds (spotsData : List StudySpot)
    (dayOfWeek currentTime yesterdayDayOfWeek : String) : List String :=
  (spotsData.filter
    (fun spot => isSpotOpen spot.hours dayOfWeek currentTime yesterdayDayOfWeek)).map
    (fun spot => spot.id)

/-- The day-name table of getCurrentMelbourneTime (index.ts line 23). -/
def days : List String :=
  ["sunday", "monday", "tuesday", "wednesday", "thursday", "friday", "saturday"]

/-- The yesterday index computation of getCurrentMelbourneTime
(index.ts line 27): JavaScript subtraction is integer-valued, so the
embedding computes in Int. -/
def yesterdayIndexOf (dayIndex : Nat) : Int :=
  ((dayIndex : Int) - 1 + 7) % 7

/-- The yesterday day-name selection of getCurrentMelbourneTime
(index.ts line 28). -/
def yesterdayDayOf (dayIndex : Nat) : Option String :=
  days.get? (yesterdayIndexOf dayIndex).toNat

theorem listLt_irrefl (l : List Char) : listLt l l = false := by
  induction l with
  | nil => rfl
  | cons a as ih => simp [listLt, ih]

theorem listLt_asymm : ∀ {a b : List Char}, listLt a b = true → listLt b a = false
  | _, [], h => by simp [listLt] at h
  | [], _ :: _, _ => rfl
  | c :: cs, d :: ds, h => by
    by_cases hcd : c = d
    · subst hcd
      simp only [listLt, if_pos rfl] at h ⊢
      exact listLt_asymm h
    · simp only [listLt, if_neg hcd, if_neg (Ne.symm hcd)] at h ⊢
      exact decide_eq_false (lt_asymm (of_decide_eq_true h))

theorem jsLt_irrefl (s : String) : jsLt s s = false :=
  listLt_irrefl s.data

theorem jsLt_asymm {a b : String} (h : jsLt a b = true) : jsLt b a = false :=
  listLt_asymm h

theorem mem_of_lookup_eq_some {hs : SpotHours} {k : String} {s : DaySchedule}
    (h : hs.lookup k = some s) : (k, s) ∈ hs := by
  induction hs with
  | nil => simp [List.lookup] at h
  | cons p tl ih =>
    obtain ⟨k', s'⟩ := p
    by_cases hk : k = k'
    · subst hk
      simp [List.lookup] at h
      subst h
      exact List.mem_cons_self _ _
    · simp only [List.lookup, beq_eq_false_iff_ne.mpr hk] at h
      exact List.mem_cons_of_mem _ (ih h)

theorem lookup_singleton_self (k : String) (s : DaySchedule) :
    ([(k, s)]).lookup k = some s := by
  simp [List.lookup]

theorem lookup_singleton_ne {k a : String} (s : DaySchedule) (h : a ≠ k) :
    ([(k, s)]).lookup a = none := by
  simp [List.lookup, beq_eq_false_iff_ne.mpr h]

theorem lookup_cons_ne {k a : String} {s : DaySchedule} {tl : SpotHours} (h : a ≠ k) :
    ((k, s) :: tl).lookup a = tl.lookup a := by
  simp [List.lookup, beq_eq_false_iff_ne.mpr h]

/-- Claim C3: for every TimeContext (every dayOfWeek, currentTime and
yesterdayDayOfWeek triple), isSpotOpen applied to null hours returns false. -/
theorem c3_null_hours (day t yday : String) :
    isSpotOpen none day t yday = false := rfl

/-- Claim C9: for every weekday index below 7, the yesterday index
(index - 1 + 7) mod 7 is in range 0..6, yesterdayDayOf selects the day
name at that index (equivalently at the Nat index (i + 6) mod 7), and in
particular index 0 (sunday) wraps to saturday. -/
theorem c9_yesterday_wraparound : ∀ i : Nat, i < 7 →
    yesterdayDayOf i = days.get? ((i + 6) % 7) ∧
    (yesterdayDayOf i).isSome = true ∧
    0 ≤ yesterdayIndexOf i ∧ yesterdayIndexOf i < 7 ∧
    yesterdayDayOf 0 = some "saturday" := by decide

theorem c9_yesterday_wraparound_witness : 0 < 7 ∧
    (yesterdayDayOf 0 = days.get? ((0 + 6) % 7) ∧
     (yesterdayDayOf 0).isSome = true ∧
     0 ≤ yesterdayIndexOf 0 ∧ yesterdayIndexOf 0 < 7 ∧
     yesterdayDayOf 0 = some "saturday") :=
  ⟨by decide, c9_yesterday_wraparound 0 (by decide)⟩

/-- Claim C1: same-day window semantics. If the schedule looked up under the
lowercased dayOfWeek has both fields present (non-empty), neither one the
closed sentinel, and open lexicographically below close, then the today
pass of isSpotOpen is true exactly when currentTime is at least open and
strictly below close; in particular, for an hours map whose only entry is
such a schedule keyed by the lowercased today day, isSpotOpen is true
exactly on that same window. -/
theorem c1_same_day_window
    (hs : SpotHours) (sched : DaySchedule) (day t yday o c : String)
    (hlook : hs.lookup (toLowerCase day) = some sched)
    (ho : sched.openTime = some o) (hc : sched.closeTime = some c)
    (hone : o ≠ "") (hcne : c ≠ "")
    (hos : toLowerCase o ≠ "closed") (hcs : toLowerCase c ≠ "closed")
    (holt : jsLt o c = true) :
    todayPass hs day t = (!(jsLt t o) && jsLt t c) ∧
    isSpotOpen (some [(toLowerCase day, sched)]) day t yday =
      (!(jsLt t o) && jsLt t c) := by
  have hbt : todayBranch sched t = (!(jsLt t o) && jsLt t c) := by
    simp [todayBranch, ho, hc, beq_eq_false_iff_ne.mpr hone,
      beq_eq_false_iff_ne.mpr hcne, beq_eq_false_iff_ne.mpr hos,
      beq_eq_false_iff_ne.mpr hcs, holt]
  have hby : yesterdayBranch sched t = false := by
    simp [yesterdayBranch, ho, hc, jsLt_asymm holt]
  refine ⟨by simp [todayPass, hlook, hbt], ?_⟩
  simp only [isSpotOpen, todayPass, yesterdayPass, lookup_singleton_self]
  by_cases hyd : toLowerCase yday = toLowerCase day
  · rw [hyd, lookup_singleton_self]
    simp [hbt, hby]
  · rw [lookup_singleton_ne _ hyd]
    simp [hbt]

theorem c1_same_day_window_witness :
    ([("monday", DaySchedule.mk (some "09:00") (some "17:00"))].lookup
        (toLowerCase "monday") = some (DaySchedule.mk (some "09:00") (some "17:00"))) ∧
    ("09:00" : String) ≠ "" ∧ ("17:00" : String) ≠ "" ∧
    toLowerCase "09:00" ≠ "closed" ∧ toLowerCase "17:00" ≠ "closed" ∧
    jsLt "09:00" "17:00" = true ∧
    (todayPass [("monday", DaySchedule.mk (some "09:00") (some "17:00"))] "monday" "12:00" =
        (!(jsLt "12:00" "09:00") && jsLt "12:00" "17:00") ∧
      isSpotOpen
        (some [(toLowerCase "monday", DaySchedule.mk (some "09:00") (some "17:00"))])
        "monday" "12:00" "sunday" =
        (!(jsLt "12:00" "09:00") && jsLt "12:00" "17:00")) :=
  ⟨by decide, by decide, by decide, by decide, by decide, by decide,
    c1_same_day_window [("monday", DaySchedule.mk (some "09:00") (some "17:00"))]
      (DaySchedule.mk (some "09:00") (some "17:00")) "monday" "12:00" "sunday"
      "09:00" "17:00" (by decide) rfl rfl (by decide) (by decide) (by decide)
      (by decide) (by decide)⟩

/-- Claim C2: overnight window semantics. A schedule with both fields
present (non-empty), neither one the closed sentinel, and open
lexicographically above close fires the today block exactly when
currentTime is at least open, and the yesterday block exactly when
currentTime is strictly below close; accordingly the today pass of a map
holding it under the today key, and the yesterday pass of a map holding
it under the yesterday key, equal those conditions; in particular the map
holding open 22:00 close 02:00 under yesterday only makes isSpotOpen true
at 01:15 and false at 03:00. -/
theorem c2_overnight_window
    (hs : SpotHours) (sched : DaySchedule) (day t yday o c : String)
    (ho : sched.openTime = some o) (hc : sched.closeTime = some c)
    (hone : o ≠ "") (hcne : c ≠ "")
    (hos : toLowerCase o ≠ "closed") (hcs : toLowerCase c ≠ "closed")
    (hgt : jsLt c o = true) :
    todayBranch sched t = !(jsLt t o) ∧
    yesterdayBranch sched t = jsLt t c ∧
    (hs.lookup (toLowerCase day) = some sched → todayPass hs day t = !(jsLt t o)) ∧
    (hs.lookup (toLowerCase yday) = some sched → yesterdayPass hs yday t = jsLt t c) ∧
    isSpotOpen (some [("sunday", DaySchedule.mk (some "22:00") (some "02:00"))])
      "monday" "01:15" "sunday" = true ∧
    isSpotOpen (some [("sunday", DaySchedule.mk (some "22:00") (some "02:00"))])
      "monday" "03:00" "sunday" = false := by
  have hbt : todayBranch sched t = !(jsLt t o) := by
    simp [todayBranch, ho, hc, beq_eq_false_iff_ne.mpr hone,
      beq_eq_false_iff_ne.mpr hcne, beq_eq_false_iff_ne.mpr hos,
      beq_eq_false_iff_ne.mpr hcs, jsLt_asymm hgt, hgt]
  have hby : yesterdayBranch sched t = jsLt t c := by
    simp [yesterdayBranch, ho, hc, beq_eq_false_iff_ne.mpr hone,
      beq_eq_false_iff_ne.mpr hcne, beq_eq_false_iff_ne.mpr hos,
      beq_eq_false_iff_ne.mpr hcs, hgt]
  refine ⟨hbt, hby, fun h => by simp [todayPass, h, hbt],
    fun h => by simp [yesterdayPass, h, hby], by decide, by decide⟩

theorem c2_overnight_window_witness :
    ((DaySchedule.mk (some "22:00") (some "02:00")).openTime = some "22:00") ∧
    ("22:00" : String) ≠ "" ∧ ("02:00" : String) ≠ "" ∧
    toLowerCase "22:00" ≠ "closed" ∧ toLowerCase "02:00" ≠ "closed" ∧
    jsLt "02:00" "22:00" = true ∧
    (todayBranch (DaySchedule.mk (some "22:00") (some "02:00")) "01:15" =
        !(jsLt "01:15" "22:00") ∧
      yesterdayBranch (DaySchedule.mk (some "22:00") (some "02:00")) "01:15" =
        jsLt "01:15" "02:00" ∧
      ([("sunday", DaySchedule.mk (some "22:00") (some "02:00"))].lookup
          (toLowerCase "monday") = some (DaySchedule.mk (some "22:00") (some "02:00")) →
        todayPass [("sunday", DaySchedule.mk (some "22:00") (some "02:00"))] "monday" "01:15" =
          !(jsLt "01:15" "22:00")) ∧
      ([("sunday", DaySchedule.mk (some "22:00") (some "02:00"))].lookup
          (toLowerCase "sunday") = some (DaySchedule.mk (some "22:00") (some "02:00")) →
        yesterdayPass [("sunday", DaySchedule.mk (some "22:00") (some "02:00"))] "sunday" "01:15" =
          jsLt "01:15" "02:00") ∧
      isSpotOpen (some [("sunday", DaySchedule.mk (some "22:00") (some "02:00"))])
        "monday" "01:15" "sunday" = true ∧
      isSpotOpen (some [("sunday", DaySchedule.mk (some "22:00") (some "02:00"))])
        "monday" "03:00" "sunday" = false) :=
  ⟨rfl, by decide, by decide, by decide, by decide, by decide,
    c2_overnight_window [("sunday", DaySchedule.mk (some "22:00") (some "02:00"))]
      (DaySchedule.mk (some "22:00") (some "02:00")) "monday" "01:15" "sunday"
      "22:00" "02:00" rfl rfl (by decide) (by decide) (by decide) (by decide)
      (by decide)⟩

/-- Claim C8: degenerate equal bounds. A schedule with open and close both
present and equal, not the closed sentinel, fires neither the today block
nor the yesterday block, so the singleton map keyed by the lowercased
today day makes isSpotOpen false at every currentTime. -/
theorem c8_equal_bounds
    (sched : DaySchedule) (day t yday o : String)
    (ho : sched.openTime = some o) (hc : sched.closeTime = some o)
    (hos : toLowerCase o ≠ "closed") :
    todayBranch sched t = false ∧ yesterdayBranch sched t = false ∧
    isSpotOpen (some [(toLowerCase day, sched)]) day t yday = false := by
  have hbt : todayBranch sched t = false := by
    simp [todayBranch, ho, hc, jsLt_irrefl]
  have hby : yesterdayBranch sched t = false := by
    simp [yesterdayBranch, ho, hc, jsLt_irrefl]
  refine ⟨hbt, hby, ?_⟩
  simp only [isSpotOpen, todayPass, yesterdayPass, lookup_singleton_self]
  by_cases hyd : toLowerCase yday = toLowerCase day
  · rw [hyd, lookup_singleton_self]
    simp [hbt, hby]
  · rw [lookup_singleton_ne _ hyd]
    simp [hbt]

theorem c8_equal_bounds_witness :
    ((DaySchedule.mk (some "10:00") (some "10:00")).openTime = some "10:00") ∧
    ((DaySchedule.mk (some "10:00") (some "10:00")).closeTime = some "10:00") ∧
    toLowerCase "10:00" ≠ "closed" ∧
    (todayBranch (DaySchedule.mk (some "10:00") (some "10:00")) "12:00" = false ∧
      yesterdayBranch (DaySchedule.mk (some "10:00") (some "10:00")) "12:00" = false ∧
      isSpotOpen (some [(toLowerCase "monday", DaySchedule.mk (some "10:00") (some "10:00"))])
        "monday" "12:00" "sunday" = false) :=
  ⟨rfl, rfl, by decide,
    c8_equal_bounds (DaySchedule.mk (some "10:00") (some "10:00"))
      "monday" "12:00" "sunday" "10:00" rfl rfl (by decide)⟩

/-- Claim C4 counterexample: storing the schedule under the mixed-case key
Monday gives a different isSpotOpen result than storing it under the
lowercase key monday, for the same TimeContext, so stored-key lookup is
not case-insensitive. -/
theorem c4_counterexample :
    isSpotOpen (some [("Monday", DaySchedule.mk (some "09:00") (some "17:00"))])
      "monday" "12:00" "sunday" = false ∧
    isSpotOpen (some [("monday", DaySchedule.mk (some "09:00") (some "17:00"))])
      "monday" "12:00" "sunday" = true := by decide

/-- Claim C4 as amended: the evaluator lowercases the TimeContext day names
before lookup, so the result is insensitive to the case of dayOfWeek and
yesterdayDayOfWeek; stored keys, however, are matched case-sensitively
against the lowercased day name, so a schedule stored under a mixed-case
key such as Monday is never found, even when the context day name is also
Monday. -/
theorem c4_amended_case_handling
    (hs : SpotHours) (d1 d2 y1 y2 t : String)
    (hd : toLowerCase d1 = toLowerCase d2) (hy : toLowerCase y1 = toLowerCase y2) :
    isSpotOpen (some hs) d1 t y1 = isSpotOpen (some hs) d2 t y2 ∧
    isSpotOpen (some [("Monday", DaySchedule.mk (some "09:00") (some "17:00"))])
      "Monday" "12:00" "sunday" = false := by
  refine ⟨?_, by decide⟩
  simp [isSpotOpen, todayPass, yesterdayPass, hd, hy]

theorem c4_amended_case_handling_witness :
    toLowerCase "Monday" = toLowerCase "monday" ∧
    toLowerCase "SUNDAY" = toLowerCase "sunday" ∧
    (isSpotOpen (some [("monday", DaySchedule.mk (some "09:00") (some "17:00"))])
        "Monday" "12:00" "SUNDAY" =
      isSpotOpen (some [("monday", DaySchedule.mk (some "09:00") (some "17:00"))])
        "monday" "12:00" "sunday" ∧
      isSpotOpen (some [("Monday", DaySchedule.mk (some "09:00") (some "17:00"))])
        "Monday" "12:00" "sunday" = false) :=
  ⟨by decide, by decide,
    c4_amended_case_handling [("monday", DaySchedule.mk (some "09:00") (some "17:00"))]
      "Monday" "monday" "SUNDAY" "sunday" "12:00" (by decide) (by decide)⟩

/-- Claim C5 counterexample: a day entry whose open and close strings are
present, non-empty, not the closed sentinel, and not parseable as
zero-padded HH:MM times still produces a match, because the evaluator
performs no parsing and compares the raw strings lexicographically. -/
theorem c5_counterexample :
    isSpotOpen (some [("monday", DaySchedule.mk (some "00") (some "24"))])
      "monday" "12:00" "sunday" = true := by decide

/-- Claim C5 as amended: a day entry missing open or close (or carrying an
empty string, which the JavaScript truthiness guard treats as missing)
contributes no match, and an hours map all of whose entries are of that
shape makes isSpotOpen false; the evaluator is a total function, so no
input raises an exception; but present non-empty strings are not
validated: they are compared lexicographically as-is, so unparseable
non-sentinel strings can still produce a match. -/
theorem c5_amended_missing_fields
    (hs : SpotHours) (sched : DaySchedule) (day t yday : String)
    (hsched : missingFields sched = true)
    (hmap : hs.all (fun p => missingFields p.2) = true) :
    todayBranch sched t = false ∧ yesterdayBranch sched t = false ∧
    isSpotOpen (some hs) day t yday = false ∧
    isSpotOpen (some [("monday", DaySchedule.mk (some "00") (some "24"))])
      "monday" "12:00" "sunday" = true := by
  have hb : ∀ s : DaySchedule, missingFields s = true →
      todayBranch s t = false ∧ yesterdayBranch s t = false := by
    intro s hcase
    obtain ⟨os, cs⟩ := s
    rcases os with _ | o <;> rcases cs with _ | c <;>
      simp_all [missingFields, truthy, todayBranch, yesterdayBranch]
  have hp : todayPass hs day t = false := by
    unfold todayPass
    cases hl : hs.lookup (toLowerCase day) with
    | none => rfl
    | some s =>
      exact (hb s (List.all_eq_true.mp hmap _ (mem_of_lookup_eq_some hl))).1
  have hq : yesterdayPass hs yday t = false := by
    unfold yesterdayPass
    cases hl : hs.lookup (toLowerCase yday) with
    | none => rfl
    | some s =>
      exact (hb s (List.all_eq_true.mp hmap _ (mem_of_lookup_eq_some hl))).2
  exact ⟨(hb sched hsched).1, (hb sched hsched).2,
    by simp [isSpotOpen, hp, hq], by decide⟩

theorem c5_amended_missing_fields_witness :
    missingFields (DaySchedule.mk (some "09:00") none) = true ∧
    ([("monday", DaySchedule.mk (some "09:00") none)].all
      (fun p => missingFields p.2)) = true ∧
    (todayBranch (DaySchedule.mk (some "09:00") none) "12:00" = false ∧
      yesterdayBranch (DaySchedule.mk (some "09:00") none) "12:00" = false ∧
      isSpotOpen (some [("monday", DaySchedule.mk (some "09:00") none)])
        "monday" "12:00" "sunday" = false ∧
      isSpotOpen (some [("monday", DaySchedule.mk (some "00") (some "24"))])
        "monday" "12:00" "sunday" = true) :=
  ⟨by decide, by decide,
    c5_amended_missing_fields [("monday", DaySchedule.mk (some "09:00") none)]
      (DaySchedule.mk (some "09:00") none) "monday" "12:00" "sunday"
      (by decide) (by decide)⟩

/-- Claim C6: a schedule whose open or close field case-insensitively
equals the closed sentinel fires neither the today block nor the
yesterday block, and an hours map all of whose entries carry the sentinel
makes isSpotOpen false for every TimeContext. -/
theorem c6_closed_sentinel
    (hs : SpotHours) (sched : DaySchedule) (day t yday : String)
    (hsent : closedSentinel sched = true)
    (hmap : hs.all (fun p => closedSentinel p.2) = true) :
    todayBranch sched t = false ∧ yesterdayBranch sched t = false ∧
    isSpotOpen (some hs) day t yday = false := by
  have hb : ∀ s : DaySchedule, closedSentinel s = true →
      todayBranch s t = false ∧ yesterdayBranch s t = false := by
    intro s hcase
    obtain ⟨os, cs⟩ := s
    rcases os with _ | o <;> rcases cs with _ | c <;>
      simp_all [closedSentinel, todayBranch, yesterdayBranch] <;>
      cases hg : (o == "" || c == "") <;>
      rcases hcase with h1 | h1 <;>
      simp_all
  have hp : todayPass hs day t = false := by
    unfold todayPass
    cases hl : hs.lookup (toLowerCase day) with
    | none => rfl
    | some s =>
      exact (hb s (List.all_eq_true.mp hmap _ (mem_of_lookup_eq_some hl))).1
  have hq : yesterdayPass hs yday t = false := by
    unfold yesterdayPass
    cases hl : hs.lookup (toLowerCase yday) with
    | none => rfl
    | some s =>
      exact (hb s (List.all_eq_true.mp hmap _ (mem_of_lookup_eq_some hl))).2
  exact ⟨(hb sched hsent).1, (hb sched hsent).2, by simp [isSpotOpen, hp, hq]⟩

theorem c6_closed_sentinel_witness :
    closedSentinel (DaySchedule.mk (some "Closed") (some "17:00")) = true ∧
    ([("monday", DaySchedule.mk (some "Closed") (some "CLOSED"))].all
      (fun p => closedSentinel p.2)) = true ∧
    (todayBranch (DaySchedule.mk (some "Closed") (some "17:00")) "12:00" = false ∧
      yesterdayBranch (DaySchedule.mk (some "Closed") (some "17:00")) "12:00" = false ∧
      isSpotOpen (some [("monday", DaySchedule.mk (some "Closed") (some "CLOSED"))])
        "monday" "12:00" "sunday" = false) :=
  ⟨by decide, by decide,
    c6_closed_sentinel [("monday", DaySchedule.mk (some "Closed") (some "CLOSED"))]
      (DaySchedule.mk (some "Closed") (some "17:00")) "monday" "12:00" "sunday"
      (by decide) (by decide)⟩

/-- Claim C7: the batch filter maps the empty input to the empty output,
satisfies a per-entity cons decomposition showing that each entity is
judged independently of the others and that output order follows input
order, produces a sublist of the full id list in input order, and an id
is returned exactly when some input entity carries it and its hours pass
the evaluator. -/
theorem c7_batch_filter (day t yday : String) (spot : StudySpot)
    (spots : List StudySpot) :
    openSpotIds [] day t yday = [] ∧
    openSpotIds (spot :: spots) day t yday =
      (if isSpotOpen spot.hours day t yday then [spot.id] else []) ++
        openSpotIds spots day t yday ∧
    List.Sublist (openSpotIds spots day t yday) (spots.map (fun s => s.id)) ∧
    ∀ x : String, x ∈ openSpotIds spots day t yday ↔
      ∃ s : StudySpot, s ∈ spots ∧ s.id = x ∧
        isSpotOpen s.hours day t yday = true := by
  refine ⟨rfl, ?_, ?_, ?_⟩
  · by_cases h : isSpotOpen spot.hours day t yday
    · simp [openSpotIds, List.filter_cons, h]
    · simp [openSpotIds, List.filter_cons, h]
  · exact (List.filter_sublist spots).map _
  · intro x
    simp only [openSpotIds, List.mem_map, List.mem_filter]
    constructor
    · rintro ⟨s, ⟨hmem, hopen⟩, hid⟩
      exact ⟨s, hmem, hid, hopen⟩
    · rintro ⟨s, hmem, hid, hopen⟩
      exact ⟨s, ⟨hmem, hopen⟩, hid⟩

theorem c7_batch_filter_witness :
    openSpotIds [] "wednesday" "23:00" "tuesday" = [] :=
  (c7_batch_filter "wednesday" "23:00" "tuesday"
    (StudySpot.mk "A" none) []).1

/-- Claim C10: the result of isSpotOpen depends on the hours map only
through the entries looked up under the lowercased dayOfWeek and the
lowercased yesterdayDayOfWeek: two maps agreeing on those two lookups
give the same result, and prepending an entry under any other key leaves
the result unchanged. -/
theorem c10_only_today_and_yesterday
    (hs1 hs2 hs : SpotHours) (sched : DaySchedule) (k day t yday : String)
    (hd : hs1.lookup (toLowerCase day) = hs2.lookup (toLowerCase day))
    (hy : hs1.lookup (toLowerCase yday) = hs2.lookup (toLowerCase yday))
    (hk1 : toLowerCase day ≠ k) (hk2 : toLowerCase yday ≠ k) :
    isSpotOpen (some hs1) day t yday = isSpotOpen (some hs2) day t yday ∧
    isSpotOpen (some ((k, sched) :: hs)) day t yday =
      isSpotOpen (some hs) day t yday := by
  constructor
  · simp [isSpotOpen, todayPass, yesterdayPass, hd, hy]
  · simp [isSpotOpen, todayPass, yesterdayPass,
      lookup_cons_ne hk1, lookup_cons_ne hk2]

theorem c10_only_today_and_yesterday_witness :
    ([("monday", DaySchedule.mk (some "09:00") (some "17:00")),
        ("friday", DaySchedule.mk (some "10:00") (some "16:00"))].lookup
        (toLowerCase "monday") =
      [("monday", DaySchedule.mk (some "09:00") (some "17:00"))].lookup
        (toLowerCase "monday")) ∧
    ([("monday", DaySchedule.mk (some "09:00") (some "17:00")),
        ("friday", DaySchedule.mk (some "10:00") (some "16:00"))].lookup
        (toLowerCase "sunday") =
      [("monday", DaySchedule.mk (some "09:00") (some "17:00"))].lookup
        (toLowerCase "sunday")) ∧
    toLowerCase "monday" ≠ "friday" ∧ toLowerCase "sunday" ≠ "friday" ∧
    (isSpotOpen (some [("monday", DaySchedule.mk (some "09:00") (some "17:00")),
        ("friday", DaySchedule.mk (some "10:00") (some "16:00"))])
        "monday" "12:00" "sunday" =
      isSpotOpen (some [("monday", DaySchedule.mk (some "09:00") (some "17:00"))])
        "monday" "12:00" "sunday" ∧
      isSpotOpen (some (("friday", DaySchedule.mk (some "10:00") (some "16:00")) ::
          [("monday", DaySchedule.mk (some "09:00") (some "17:00"))]))
        "monday" "12:00" "sunday" =
      isSpotOpen (some [("monday", DaySchedule.mk (some "09:00") (some "17:00"))])
        "monday" "12:00" "sunday") :=
  ⟨by decide, by decide, by decide, by decide,
    c10_only_today_and_yesterday
      [("monday", DaySchedule.mk (some "09:00") (some "17:00")),
        ("friday", DaySchedule.mk (some "10:00") (some "16:00"))]
      [("monday", DaySchedule.mk (some "09:00") (some "17:00"))]
      [("monday", DaySchedule.mk (some "09:00") (some "17:00"))]
      (DaySchedule.mk (some "10:00") (some "16:00"))
      "friday" "monday" "12:00" "sunday"
      (by decide) (by decide) (by decide) (by decide)⟩

